import Mathlib

/-!
Verification of the Untrace privacy-pool core against its specification.

The development is a shallow embedding of the Rust sources:

* `src/common/src/crypto.rs` — hashing-based helpers, the XOR "AEAD",
  the demo ZK-proof backend, and the standalone Merkle-path verifier;
* `src/privacy-program/src/lib.rs` — the on-chain instruction bodies
  `initialize_pool`, `deposit`, `withdraw`;
* `src/privacy-program/src/instructions.rs` / `state.rs` — the account
  layout.  Both `Deposit.commitment_account` and `Withdraw.nullifier_account`
  are declared with the Anchor `init` constraint and no seeds, so at entry
  to the instruction body they are freshly created, zero-initialised
  accounts chosen by the caller.

Bytes are modelled as `List Nat` (each entry a `u8` value); fixed-size
arrays `[u8; N]` become lists of length `N`.  The external hash functions
(sha3-256 from the `sha3` crate, blake3 from the `blake3` crate) are not
code of this repository; they are taken as explicit function parameters
`sha3`, `blake3` of type `Bytes → Bytes`, and every theorem that involves
them quantifies over the parameter, so it holds in particular for the real
hash functions.
-/

namespace Untrace

/-- Byte strings: a `Vec<u8>` or `[u8; N]` is a `List Nat` of `u8`
values. -/
abbrev Bytes := List Nat

/-- The all-zero 32-byte array `[0u8; 32]`. -/
def zeroed32 : Bytes := List.replicate 32 0

/-- Error enum from `src/common/src/error.rs` (`UntraceError`). -/
inductive UntraceError where
  | InvalidInstruction
  | InvalidPrivacyLevel
  | EncryptionFailed
  | DecryptionFailed
  | InvalidZKProof
  | InsufficientPoolSize
  | CommitmentExists
  | NullifierUsed
  | InvalidMerkleProof
  | Unauthorized
  | ProposalNotFound
  | VotingEnded
  | AlreadyVoted
  | MevProtectionViolated
  | TimeLockNotExpired
  deriving DecidableEq, Repr

/-- `PrivacyPoolAccount` from `src/privacy-program/src/state.rs`.
`authority` is a `Pubkey`, modelled as a `Nat`. -/
structure PrivacyPoolAccount where
  pool_id : Nat
  commitment_root : Bytes
  commitment_count : Nat
  min_pool_size : Nat
  authority : Nat
  deriving DecidableEq, Repr

/-- `CommitmentAccount` from `src/privacy-program/src/state.rs`. -/
structure CommitmentAccount where
  commitment : Bytes
  nullifier : Bytes
  timestamp : Int
  pool_id : Nat
  deriving DecidableEq, Repr

/-- `NullifierAccount` from `src/privacy-program/src/state.rs`. -/
structure NullifierAccount where
  nullifier : Bytes
  is_used : Bool
  timestamp : Int
  deriving DecidableEq, Repr

/-- A freshly `init`-created `CommitmentAccount`: Anchor zero-initialises
all account data, so every field is zero at entry to `deposit`. -/
def freshCommitmentAccount : CommitmentAccount :=
  { commitment := zeroed32, nullifier := zeroed32, timestamp := 0, pool_id := 0 }

/-- A freshly `init`-created `NullifierAccount`: Anchor zero-initialises
all account data, so `is_used = false` at entry to `withdraw`. -/
def freshNullifierAccount : NullifierAccount :=
  { nullifier := zeroed32, is_used := false, timestamp := 0 }

/-! ## Crypto helpers (`src/common/src/crypto.rs`) -/

/-- One level of `verify_merkle_proof`'s loop (crypto.rs lines 60-76):
hash the running value with the sibling, ordered by the parity of the
running index, then halve the index. -/
def merkleStep (sha3 : Bytes → Bytes) (acc : Bytes × Nat) (sibling : Bytes) :
    Bytes × Nat :=
  let computed := acc.1
  let idx := acc.2
  if idx % 2 == 0 then
    (sha3 (computed ++ sibling), idx / 2)
  else
    (sha3 (sibling ++ computed), idx / 2)

/-- `verify_merkle_proof` (crypto.rs lines 52-78): fold the sibling list
over `merkleStep` starting from the leaf and the claimed index, and
compare the final value with `root`. -/
def verify_merkle_proof (sha3 : Bytes → Bytes) (leaf : Bytes)
    (proof : List Bytes) (root : Bytes) (index : Nat) : Bool :=
  (proof.foldl (merkleStep sha3) (leaf, index)).1 == root

/-- XOR keystream used by both `encrypt_data` and `decrypt_data`
(crypto.rs lines 92-96 and 129-133): byte `i` is XORed with
`key[i % 32]`. -/
def xorKeystream (key : Bytes) (i : Nat) : Bytes → Bytes
  | [] => []
  | b :: rest => (b ^^^ key.getD (i % 32) 0) :: xorKeystream key (i + 1) rest

/-- Tag computation shared by `encrypt_data` (crypto.rs lines 98-105) and
`decrypt_data` (crypto.rs lines 117-123): the first 16 bytes of
`blake3(ciphertext ++ nonce)`.  The key takes no part in it. -/
def computeTag (blake3 : Bytes → Bytes) (ciphertext nonce : Bytes) : Bytes :=
  (blake3 (ciphertext ++ nonce)).take 16

/-- `encrypt_data` (crypto.rs lines 81-106): derive `key = blake3(shared_secret)`,
XOR the plaintext with the keystream, and append the tag
`blake3(ciphertext ++ nonce)[..16]`.  The Rust function returns
`Result` but has no error path. -/
def encrypt_data (blake3 : Bytes → Bytes) (plaintext shared_secret nonce : Bytes) :
    Except String (Bytes × Bytes) :=
  let key := blake3 shared_secret
  let ciphertext := xorKeystream key 0 plaintext
  let tag := computeTag blake3 ciphertext nonce
  .ok (ciphertext, tag)

/-- `decrypt_data` (crypto.rs lines 109-135): recompute the tag from the
ciphertext and nonce, fail with "Authentication failed" on mismatch, else
XOR the ciphertext back with the keystream derived from the key. -/
def decrypt_data (blake3 : Bytes → Bytes) (ciphertext shared_secret nonce tag : Bytes) :
    Except String Bytes :=
  let key := blake3 shared_secret
  let computed_tag := computeTag blake3 ciphertext nonce
  if computed_tag == tag then
    .ok (xorKeystream key 0 ciphertext)
  else
    .error "Authentication failed"

/-- Byte rendering of the domain-separation literal `b"ZK_PROOF"`. -/
def zkProofTag : Bytes := [90, 75, 95, 80, 82, 79, 79, 70]

/-- `generate_zk_proof` (crypto.rs lines 138-150):
`sha3(commitment ++ nullifier ++ secret ++ b"ZK_PROOF")`. -/
def generate_zk_proof (sha3 : Bytes → Bytes) (commitment nullifier secret : Bytes) :
    Bytes :=
  sha3 (commitment ++ nullifier ++ secret ++ zkProofTag)

/-- `verify_zk_proof` (crypto.rs lines 153-161): only the three lengths
are checked; the proof bytes are never inspected. -/
def verify_zk_proof (proof commitment nullifier : Bytes) : Bool :=
  proof.length == 32 && commitment.length == 32 && nullifier.length == 32

/-! ## Instruction bodies (`src/privacy-program/src/lib.rs`) -/

/-- `initialize_pool` (lib.rs lines 21-34): zero root, zero count. -/
def initialize_pool (pool_id min_pool_size : Nat) (authority : Nat) :
    PrivacyPoolAccount :=
  { pool_id := pool_id, commitment_root := zeroed32, commitment_count := 0,
    min_pool_size := min_pool_size, authority := authority }

/-- The root update performed by `deposit` (lib.rs lines 60-65): the new
root is the byte-wise XOR of the old root and the commitment. -/
def depositRootUpdate (root commitment : Bytes) : Bytes :=
  List.zipWith HXor.hXor root commitment

/-- `deposit` (lib.rs lines 37-70): require the (freshly initialised)
commitment account to be zeroed, store the commitment, bump the `u64`
count, and XOR the commitment into the root.  `encrypted_data` is unused
by the body. -/
def deposit (pool : PrivacyPoolAccount) (commitment_account : CommitmentAccount)
    (commitment : Bytes) (encrypted_data : Bytes) (now : Int) :
    Except UntraceError (PrivacyPoolAccount × CommitmentAccount) :=
  if commitment_account.commitment == zeroed32 then
    let ca : CommitmentAccount :=
      { commitment := commitment, nullifier := zeroed32,
        timestamp := now, pool_id := pool.pool_id }
    let pool' : PrivacyPoolAccount :=
      { pool with
        commitment_count := (pool.commitment_count + 1) % 2 ^ 64,
        commitment_root := depositRootUpdate pool.commitment_root commitment }
    .ok (pool', ca)
  else
    .error UntraceError.CommitmentExists

/-- `withdraw` (lib.rs lines 72-107): check pool size, check the
(freshly initialised) nullifier account's `is_used` flag, check the demo
ZK proof against the literal `[0u8; 32]` commitment, then mark the
account used.  The `merkle_proof` argument is never read and the pool is
never written. -/
def withdraw (pool : PrivacyPoolAccount) (nullifier_account : NullifierAccount)
    (nullifier : Bytes) (recipient : Nat) (zk_proof : Bytes)
    (merkle_proof : List Bytes) (now : Int) :
    Except UntraceError NullifierAccount :=
  if pool.min_pool_size ≤ pool.commitment_count then
    if nullifier_account.is_used == false then
      if verify_zk_proof zk_proof zeroed32 nullifier then
        .ok { nullifier := nullifier, is_used := true, timestamp := now }
      else
        .error UntraceError.InvalidZKProof
    else
      .error UntraceError.NullifierUsed
  else
    .error UntraceError.InsufficientPoolSize

/-- Pool-level view of a deposit: every on-chain deposit runs the body on
a freshly `init`-created, zeroed commitment account, so this is the pool
transition a successful deposit induces. -/
def depositPool (pool : PrivacyPoolAccount) (commitment : Bytes) :
    Except UntraceError PrivacyPoolAccount :=
  (deposit pool freshCommitmentAccount commitment [] 0).map Prod.fst

/-- Pool state after `initialize_pool` followed by a sequence of deposits
(each with its own fresh commitment account, as the Anchor `init`
constraint forces). -/
def depositSeq (pool : PrivacyPoolAccount) : List Bytes →
    Except UntraceError PrivacyPoolAccount
  | [] => .ok pool
  | c :: rest =>
    match depositPool pool c with
    | .ok pool' => depositSeq pool' rest
    | .error e => .error e

/-! ## Demo inputs used by evaluation theorems -/

/-- Demo commitment A: `0x01` followed by 31 zero bytes. -/
def cA : Bytes := 1 :: List.replicate 31 0

/-- Demo commitment B: `0x02` followed by 31 zero bytes. -/
def cB : Bytes := 2 :: List.replicate 31 0

/-- Demo nullifier: 32 bytes of `0x04`. -/
def nC2 : Bytes := List.replicate 32 4

/-- Demo nullifier for the double-spend run: 32 bytes of `0x05`. -/
def nC4 : Bytes := List.replicate 32 5

/-- A 32-byte zk proof blob (only its length is ever checked). -/
def zk32 : Bytes := List.replicate 32 0

/-- The pool reached by `initialize_pool 1 2 7` followed by deposits of
`cA` then `cB`: its root is the byte-wise XOR `cA ⊕ cB`. -/
def poolC2 : PrivacyPoolAccount :=
  { pool_id := 1, commitment_root := 3 :: List.replicate 31 0,
    commitment_count := 2, min_pool_size := 2, authority := 7 }

/-- The pool reached by `initialize_pool 1 2 7` followed by one deposit
of `cA`. -/
def poolC3a : PrivacyPoolAccount :=
  { pool_id := 1, commitment_root := cA, commitment_count := 1,
    min_pool_size := 2, authority := 7 }

/-! ## Helper lemmas -/

/-- XOR-ing the same keystream twice restores the plaintext. -/
theorem xorKeystream_involutive (key : Bytes) :
    ∀ (i : Nat) (p : Bytes), xorKeystream key i (xorKeystream key i p) = p := by
  intro i p
  induction p generalizing i with
  | nil => rfl
  | cons b rest ih =>
    simp only [xorKeystream, ih]
    rw [Nat.xor_assoc, Nat.xor_self, Nat.xor_zero]

/-- The deposit root update is left-commutative. -/
theorem depositRootUpdate_left_comm :
    ∀ (b a a' : Bytes),
      depositRootUpdate (depositRootUpdate b a) a' =
        depositRootUpdate (depositRootUpdate b a') a := by
  intro b
  induction b with
  | nil => intro a a'; rfl
  | cons x bs ih =>
    intro a a'
    cases a with
    | nil => cases a' <;> rfl
    | cons y as =>
      cases a' with
      | nil => rfl
      | cons z as' =>
        simp only [depositRootUpdate, List.zipWith] at ih ⊢
        refine congrArg₂ _ ?_ (ih as as')
        rw [Nat.xor_assoc, Nat.xor_assoc, Nat.xor_comm y z]

/-- XOR-ing the same commitment into the root twice cancels, provided the
lengths agree (both are 32 in the program). -/
theorem depositRootUpdate_cancel :
    ∀ (r c : Bytes), r.length = c.length →
      depositRootUpdate (depositRootUpdate r c) c = r := by
  intro r
  induction r with
  | nil => intro c _; rfl
  | cons x rs ih =>
    intro c hlen
    cases c with
    | nil => simp at hlen
    | cons y cs =>
      simp only [List.length_cons, Nat.add_right_cancel_iff] at hlen
      simp only [depositRootUpdate, List.zipWith]
      rw [Nat.xor_assoc, Nat.xor_self, Nat.xor_zero]
      exact congrArg _ (ih cs hlen)

/-- Folding a left-commutative update over a list is invariant under
permutation of the list. -/
theorem foldl_eq_of_perm {α β : Type} (f : β → α → β)
    (hf : ∀ b a a', f (f b a) a' = f (f b a') a) :
    ∀ {l l' : List α}, l.Perm l' → ∀ b, l.foldl f b = l'.foldl f b := by
  intro l l' hp
  induction hp with
  | nil => intro b; rfl
  | cons x _ ih => intro b; simpa using ih (f b x)
  | swap x y l => intro b; simp [List.foldl, hf]
  | trans _ _ ih1 ih2 => intro b; exact (ih1 b).trans (ih2 b)

/-- Result of `Except.isOk` style check used to express "the call
succeeded". -/
def exceptIsOk {ε α : Type} : Except ε α → Bool
  | .ok _ => true
  | .error _ => false

/-! ## Claim theorems -/

/-- C5: a withdraw against a pool with `commitment_count < min_pool_size`
fails with `InsufficientPoolSize` for every nullifier, recipient, zk
proof and merkle proof; the body returns the error before any state is
written, so nothing is mutated. -/
theorem untrace_C5_threshold (pool : PrivacyPoolAccount) (na : NullifierAccount)
    (n : Bytes) (r : Nat) (zk : Bytes) (mp : List Bytes) (now : Int)
    (h : pool.commitment_count < pool.min_pool_size) :
    withdraw pool na n r zk mp now = .error UntraceError.InsufficientPoolSize := by
  unfold withdraw
  rw [if_neg (by omega)]

/-- Witness for C5 at a concrete pool with 0 commitments and
`min_pool_size = 2`. -/
theorem untrace_C5_threshold_witness :
    withdraw (initialize_pool 1 2 7) freshNullifierAccount nC2 0 zk32 [] 0 =
      .error UntraceError.InsufficientPoolSize :=
  untrace_C5_threshold (initialize_pool 1 2 7) freshNullifierAccount nC2 0 zk32 [] 0
    (by decide)

/-- C7: encryption round-trip — whatever `blake3` is, decrypting the
ciphertext-tag pair produced by `encrypt_data` under the same key and
nonce recovers the plaintext. -/
theorem untrace_C7_roundtrip (blake3 : Bytes → Bytes) (p k n ct tag : Bytes)
    (hk : k.length = 32) (hn : n.length = 12)
    (henc : encrypt_data blake3 p k n = .ok (ct, tag)) :
    decrypt_data blake3 ct k n tag = .ok p := by
  simp only [encrypt_data, Except.ok.injEq, Prod.mk.injEq] at henc
  obtain ⟨hct, htag⟩ := henc
  unfold decrypt_data
  rw [← hct, ← htag, if_pos (by simp), xorKeystream_involutive]

/-- Witness for C7 with a concrete hash function, plaintext, key and
nonce. -/
theorem untrace_C7_roundtrip_witness :
    decrypt_data (fun _ => List.replicate 32 1) [11, 254] (List.replicate 32 5)
      (List.replicate 12 9) (List.replicate 16 1) = .ok [10, 255] :=
  untrace_C7_roundtrip (fun _ => List.replicate 32 1) [10, 255]
    (List.replicate 32 5) (List.replicate 12 9) [11, 254] (List.replicate 16 1)
    (by decide) (by decide) (by rfl)

/-- C9: the tag check inside `decrypt_data` is independent of the key —
whether decryption succeeds is the same under any two keys — and the
accepting tag is computable from the ciphertext and nonce alone
(`computeTag` takes no key), so it can be forged without the key. -/
theorem untrace_C9_key_independent (blake3 : Bytes → Bytes)
    (ct n tag k1 k2 : Bytes) :
    exceptIsOk (decrypt_data blake3 ct k1 n tag)
      = exceptIsOk (decrypt_data blake3 ct k2 n tag) ∧
    decrypt_data blake3 ct k1 n (computeTag blake3 ct n)
      = .ok (xorKeystream (blake3 k1) 0 ct) := by
  constructor
  · unfold decrypt_data
    cases h : computeTag blake3 ct n == tag <;> simp [h, exceptIsOk]
  · unfold decrypt_data
    simp

/-- C10: the deposit root update is an involution (same commitment twice
restores the root), and folding it over a sequence of commitments is
invariant under permutation of the sequence. -/
theorem untrace_C10_xor_fold (r c : Bytes) (hr : r.length = 32)
    (hc : c.length = 32) (root : Bytes) (l l' : List Bytes) (hp : l.Perm l') :
    depositRootUpdate (depositRootUpdate r c) c = r ∧
    l.foldl depositRootUpdate root = l'.foldl depositRootUpdate root := by
  constructor
  · exact depositRootUpdate_cancel r c (hr.trans hc.symm)
  · exact foldl_eq_of_perm depositRootUpdate depositRootUpdate_left_comm hp root

/-- Witness for C10 at concrete roots, commitments and a concrete
two-element permutation. -/
theorem untrace_C10_xor_fold_witness :
    depositRootUpdate (depositRootUpdate (List.replicate 32 3) (List.replicate 32 5))
      (List.replicate 32 5) = List.replicate 32 3 ∧
    [cA, cB].foldl depositRootUpdate zeroed32 =
      [cB, cA].foldl depositRootUpdate zeroed32 :=
  untrace_C10_xor_fold (List.replicate 32 3) (List.replicate 32 5) (by decide)
    (by decide) zeroed32 [cA, cB] [cB, cA] (by decide)

/-- C1 (code evaluation): after `initialize_pool` and one successful
deposit of commitment `cA`, the pool's `commitment_root` is literally
`cA` itself — the deposit body computes the root as a byte-wise XOR fold
(`depositRootUpdate`) with no hashing, so the root is never the sha3
Merkle root of the leaves that the claim describes. -/
theorem untrace_C1_eval :
    depositPool (initialize_pool 1 2 7) cA = .ok poolC3a ∧
    poolC3a.commitment_root = cA ∧ poolC3a.commitment_count = 1 := by
  exact ⟨rfl, rfl, rfl⟩

/-- C2 (code evaluation): the pool `poolC2` with two deposited leaves
`cA, cB` is reachable; a withdraw supplying the empty merkle proof
succeeds, even though that proof verifies neither deposited leaf against
the pool root (for every choice of the hash function, since an empty
path never invokes it); moreover `withdraw`'s result is entirely
independent of the `merkle_proof` argument. -/
theorem untrace_C2_eval :
    ∀ sha3 : Bytes → Bytes,
      depositSeq (initialize_pool 1 2 7) [cA, cB] = .ok poolC2 ∧
      withdraw poolC2 freshNullifierAccount nC2 0 zk32 [] 0 =
        .ok { nullifier := nC2, is_used := true, timestamp := 0 } ∧
      verify_merkle_proof sha3 cA [] poolC2.commitment_root 0 = false ∧
      verify_merkle_proof sha3 cB [] poolC2.commitment_root 0 = false ∧
      ∀ (pool : PrivacyPoolAccount) (na : NullifierAccount) (n : Bytes)
        (r : Nat) (zk : Bytes) (mp mp' : List Bytes) (now : Int),
        withdraw pool na n r zk mp now = withdraw pool na n r zk mp' now := by
  intro sha3
  exact ⟨rfl, rfl, rfl, rfl, fun pool na n r zk mp mp' now => rfl⟩

/-- C3 (code evaluation): depositing the exact same commitment value `cA`
twice succeeds both times — the `CommitmentExists` check compares the
freshly `init`-created (hence zeroed) commitment account against zero, so
it can never fire — and the second deposit XOR-cancels the root back to
all zeroes while the count rises to 2. -/
theorem untrace_C3_eval :
    depositPool (initialize_pool 1 2 7) cA = .ok poolC3a ∧
    depositPool poolC3a cA =
      .ok { pool_id := 1, commitment_root := zeroed32, commitment_count := 2,
            min_pool_size := 2, authority := 7 } := by
  exact ⟨rfl, rfl⟩

/-- C4 (code evaluation): the spent flag lives only in the per-call
freshly `init`-created nullifier account, whose `is_used` is `false` at
entry, so `withdraw` can never return `NullifierUsed` (first conjunct:
its result is fully described without that branch), and the same
nullifier `nC4` is accepted by two successive withdrawals. -/
theorem untrace_C4_eval :
    (∀ (pool : PrivacyPoolAccount) (n : Bytes) (r : Nat) (zk : Bytes)
      (mp : List Bytes) (now : Int),
      withdraw pool freshNullifierAccount n r zk mp now =
        if pool.min_pool_size ≤ pool.commitment_count then
          if verify_zk_proof zk zeroed32 n then
            .ok { nullifier := n, is_used := true, timestamp := now }
          else .error UntraceError.InvalidZKProof
        else .error UntraceError.InsufficientPoolSize) ∧
    withdraw poolC2 freshNullifierAccount nC4 0 zk32 [] 0 =
      .ok { nullifier := nC4, is_used := true, timestamp := 0 } ∧
    withdraw poolC2 freshNullifierAccount nC4 0 zk32 [] 1 =
      .ok { nullifier := nC4, is_used := true, timestamp := 1 } := by
  exact ⟨fun pool n r zk mp now => rfl, rfl, rfl⟩

/-- C6 (code evaluation): a proof produced by `generate_zk_proof` for
public inputs `(c, n, s)` is accepted by `verify_zk_proof` both against
the nullifier `n` it was built for and against any other 32-byte
nullifier — the verifier checks only the three lengths and never inspects
the proof bytes. -/
theorem untrace_C6_eval (sha3 : Bytes → Bytes)
    (h32 : ∀ xs, (sha3 xs).length = 32) (c n s nOther : Bytes)
    (hc : c.length = 32) (hn : n.length = 32) (hn2 : nOther.length = 32) :
    verify_zk_proof (generate_zk_proof sha3 c n s) c n = true ∧
    verify_zk_proof (generate_zk_proof sha3 c n s) c nOther = true := by
  unfold verify_zk_proof generate_zk_proof
  simp [h32, hc, hn, hn2]

/-- Witness for C6 at a concrete hash function and concrete inputs, with
the second nullifier different from the one the proof was built for. -/
theorem untrace_C6_eval_witness :
    verify_zk_proof
      (generate_zk_proof (fun _ => List.replicate 32 0) (List.replicate 32 1)
        (List.replicate 32 2) []) (List.replicate 32 1) (List.replicate 32 2)
      = true ∧
    verify_zk_proof
      (generate_zk_proof (fun _ => List.replicate 32 0) (List.replicate 32 1)
        (List.replicate 32 2) []) (List.replicate 32 1) (List.replicate 32 3)
      = true :=
  untrace_C6_eval (fun _ => List.replicate 32 0) (fun _ => by simp)
    (List.replicate 32 1) (List.replicate 32 2) [] (List.replicate 32 3)
    (by decide) (by decide) (by decide)

end Untrace
